import Mathlib

/-!
Shallow embedding of the conversation-assembly and streaming pipeline of
`src/clients/openai.js` (jupytutor_server), together with theorems checking
the specification's claims about it.

Modelling conventions:
* JS objects become Lean structures; an optional/possibly-absent field is an
  `Option`.
* A `Buffer` is a `List Nat` of byte values.
* JS string falsiness (`"" || x`) is modelled explicitly where the source
  relies on it.
* The out-of-scope reference to `isImageByContent` inside `promptTutor`
  (it is declared inside `processFile`) is modelled as an `Except` error,
  since evaluating it raises a `ReferenceError` at runtime.
-/

namespace Jupytutor

/-- One content item of a multimodal message, as built by `processFile` and
consumed by the pipeline.  `type` is the JS `type` tag (`"input_text"`,
`"input_image"`, ...); absent fields are `none`. -/
structure ContentBlock where
  type : String
  text : Option String := none
  image_url : Option String := none
  noShow : Option Bool := none
  deriving DecidableEq, Repr

/-- Message content: either a plain string or an array of content blocks. -/
inductive Content where
  | str (s : String)
  | blocks (bs : List ContentBlock)
  deriving DecidableEq, Repr

/-- A chat message.  `type` is the JS `type` field (`"message"`,
`"reasoning"`, absent for plain history messages); `role` likewise may be
absent (reasoning items carry no role). -/
structure Message where
  role : Option String := none
  type : Option String := none
  content : Content
  noShow : Option Bool := none
  deriving DecidableEq, Repr

/-- An uploaded file as handed to `promptTutor` (multer shape):
`originalname`/`name` may be absent, `buffer` is the raw bytes. -/
structure File where
  originalname : Option String := none
  name : Option String := none
  buffer : List Nat := []
  deriving DecidableEq, Repr

/-- Characters after the last `.` of the list, when a dot exists. -/
def afterLastDot : List Char → Option (List Char)
  | [] => none
  | '.' :: rest =>
    match afterLastDot rest with
    | some e => some e
    | none => some rest
  | _ :: rest => afterLastDot rest

/-- `String.prototype.toLowerCase` (ASCII case mapping). -/
def toLowerStr (s : String) : String := String.mk (s.toList.map Char.toLower)

/-- `String.prototype.toUpperCase` (ASCII case mapping). -/
def toUpperStr (s : String) : String := String.mk (s.toList.map Char.toUpper)

/-- `String.prototype.trim`: strip leading and trailing whitespace. -/
def isWhitespaceChar (c : Char) : Bool :=
  c = ' ' ∨ c = '\t' ∨ c = '\n' ∨ c = '\r' ∨ c = '\x0b' ∨ c = '\x0c'

/-- JS `trim()` over the character list. -/
def jsTrim (s : String) : String :=
  String.mk (((s.toList.dropWhile isWhitespaceChar).reverse.dropWhile
    isWhitespaceChar).reverse)

/-- `path.extname`: the suffix of the name from its last `.`, empty when
there is no dot, when the only dot is the leading character, or for the
special names `.` and `..`. -/
def extname (s : String) : String :=
  if s = "." ∨ s = ".." then ""
  else
    match s.toList with
    | [] => ""
    | c :: rest =>
      if c = '.' ∧ afterLastDot rest = none then ""
      else
        match afterLastDot (c :: rest) with
        | some e => String.mk ('.' :: e)
        | none => ""

/-- JS `file.originalname || file.name || ""` (empty strings are falsy). -/
def fileDisplayName (f : File) : String :=
  if f.originalname.getD "" = "" then f.name.getD "" else f.originalname.getD ""

/-- JS `file.originalname || file.name` inside a template literal: when both
are absent the template renders the string `"undefined"`. -/
def fileNameRaw (f : File) : String :=
  if f.originalname.getD "" = "" then
    match f.name with
    | some t => t
    | none => "undefined"
  else f.originalname.getD ""

/-- The base64 alphabet. -/
def base64Chars : List Char :=
  "ABCDEFGHIJKLMNOPQRSTUVWXYZabcdefghijklmnopqrstuvwxyz0123456789+/".toList

/-- Character for one 6-bit group. -/
def b64c (n : Nat) : Char := base64Chars.getD n 'A'

/-- `Buffer.prototype.toString("base64")`. -/
def base64Encode : List Nat → String
  | [] => ""
  | [a] =>
      String.mk [b64c (a / 4), b64c (a % 4 * 16)] ++ "=="
  | [a, b] =>
      String.mk [b64c (a / 4), b64c (a % 4 * 16 + b / 16), b64c (b % 16 * 4)] ++ "="
  | a :: b :: c :: rest =>
      String.mk [b64c (a / 4), b64c (a % 4 * 16 + b / 16),
                 b64c (b % 16 * 4 + c / 64), b64c (c % 64)] ++ base64Encode rest

/-- Is a byte a UTF-8 continuation byte? -/
def isCont (b : Nat) : Bool := 0x80 ≤ b ∧ b < 0xc0

/-- The replacement character U+FFFD used for undecodable bytes. -/
def replChar : Char := Char.ofNat 0xFFFD

/-- Fuel-driven UTF-8 decoding loop (fuel bounds the number of steps; one
byte is consumed per step at minimum, so `l.length` fuel suffices). -/
def utf8DecodeAux : Nat → List Nat → List Char
  | 0, _ => []
  | _, [] => []
  | fuel + 1, b :: rest =>
    if b < 0x80 then Char.ofNat b :: utf8DecodeAux fuel rest
    else if b < 0xc2 then replChar :: utf8DecodeAux fuel rest
    else if b < 0xe0 then
      match rest with
      | b2 :: rest2 =>
        if isCont b2 then
          Char.ofNat ((b - 0xc0) * 64 + (b2 - 0x80)) :: utf8DecodeAux fuel rest2
        else replChar :: utf8DecodeAux fuel rest
      | [] => [replChar]
    else if b < 0xf0 then
      match rest with
      | b2 :: b3 :: rest3 =>
        if isCont b2 ∧ isCont b3 then
          Char.ofNat ((b - 0xe0) * 4096 + (b2 - 0x80) * 64 + (b3 - 0x80)) ::
            utf8DecodeAux fuel rest3
        else replChar :: utf8DecodeAux fuel rest
      | _ => replChar :: utf8DecodeAux fuel rest
    else if b < 0xf5 then
      match rest with
      | b2 :: b3 :: b4 :: rest4 =>
        if isCont b2 ∧ isCont b3 ∧ isCont b4 then
          Char.ofNat ((b - 0xf0) * 262144 + (b2 - 0x80) * 4096 +
              (b3 - 0x80) * 64 + (b4 - 0x80)) :: utf8DecodeAux fuel rest4
        else replChar :: utf8DecodeAux fuel rest
      | _ => replChar :: utf8DecodeAux fuel rest
    else replChar :: utf8DecodeAux fuel rest

/-- `Buffer.prototype.toString("utf-8")`. -/
def utf8Decode (l : List Nat) : String := String.mk (utf8DecodeAux l.length l)

/-! ### Attachment classification (`processFile`) -/

/-- Image extensions recognized by `processFile` (and by the inline check in
`promptTutor`). -/
def imageExtensions : List String := [".jpg", ".jpeg", ".png", ".gif", ".bmp", ".webp"]

/-- Recognized plain-text extensions. -/
def textExtensions : List String :=
  [".txt", ".md", ".json", ".xml", ".html", ".css", ".js", ".ts", ".jsx", ".tsx"]

/-- `isImageByContent`: magic-byte sniffing on the buffer, returning a mime
type or `none`.  Declared inside `processFile` in the source. -/
def isImageByContent (buffer : List Nat) : Option String :=
  if buffer.length < 4 then none
  else if buffer.getD 0 0 = 0x89 ∧ buffer.getD 1 0 = 0x50 ∧
          buffer.getD 2 0 = 0x4e ∧ buffer.getD 3 0 = 0x47 then some "image/png"
  else if buffer.getD 0 0 = 0xff ∧ buffer.getD 1 0 = 0xd8 ∧
          buffer.getD 2 0 = 0xff then some "image/jpeg"
  else if buffer.getD 0 0 = 0x47 ∧ buffer.getD 1 0 = 0x49 ∧
          buffer.getD 2 0 = 0x46 ∧ buffer.getD 3 0 = 0x38 then some "image/gif"
  else if buffer.getD 0 0 = 0x42 ∧ buffer.getD 1 0 = 0x4d then some "image/bmp"
  else if 12 ≤ buffer.length ∧
          buffer.getD 0 0 = 0x52 ∧ buffer.getD 1 0 = 0x49 ∧
          buffer.getD 2 0 = 0x46 ∧ buffer.getD 3 0 = 0x46 ∧
          buffer.getD 8 0 = 0x57 ∧ buffer.getD 9 0 = 0x45 ∧
          buffer.getD 10 0 = 0x42 ∧ buffer.getD 11 0 = 0x50 then some "image/webp"
  else none

/-- The extension used by `processFile` and by the inline image check in
`promptTutor`: `path.extname(file.originalname || file.name || "").toLowerCase()`. -/
def fileExtensionOf (f : File) : String := toLowerStr (extname (fileDisplayName f))

/-- `processFile`: classify one uploaded file into a content block.
A falsy (absent) file yields `none`; every real file yields exactly one
block, every block carrying `noShow: true`. -/
def processFile : Option File → Option ContentBlock
  | none => none
  | some file =>
    if imageExtensions.contains (fileExtensionOf file) then
      some { type := "input_image",
             image_url := some ("data:image/" ++ (fileExtensionOf file).drop 1 ++ ";base64," ++
               base64Encode file.buffer),
             noShow := some true }
    else match isImageByContent file.buffer with
    | some detectedMimeType =>
      some { type := "input_image",
             image_url := some ("data:" ++ detectedMimeType ++ ";base64," ++
               base64Encode file.buffer),
             noShow := some true }
    | none =>
      if fileExtensionOf file = ".py" then
        some { type := "input_text",
               text := some ("Python Code File (" ++ fileNameRaw file ++ "):\n\n" ++
                 utf8Decode file.buffer),
               noShow := some true }
      else if fileExtensionOf file = ".csv" then
        some { type := "input_text",
               text := some ("CSV Data File (" ++ fileNameRaw file ++ "):\n\n" ++
                 utf8Decode file.buffer),
               noShow := some true }
      else if textExtensions.contains (fileExtensionOf file) then
        some { type := "input_text",
               text := some ((toUpperStr (fileExtensionOf file)).drop 1 ++ " File (" ++
                 fileNameRaw file ++ "):\n\n" ++ utf8Decode file.buffer),
               noShow := some true }
      else
        some { type := "input_text",
               text := some ("Unsupported File Type (" ++ fileExtensionOf file ++ ") - " ++
                 fileNameRaw file ++
                 ":\n\n[File content could not be processed. Please convert to a supported format.]"),
               noShow := some true }

/-! ### Message assembly (`promptTutor`, lines 250-306) -/

/-- The pending content-block list of the new turn: classified files in
input order, then (when `newMessage` is truthy) an `input_text` block for the
new text, carrying no `noShow` field. -/
def buildMessageContent (files : List File) (newMessage : String) : List ContentBlock :=
  (files.filterMap (fun f => processFile (some f))) ++
    (if newMessage ≠ "" then
      [{ type := "input_text", text := some newMessage }]
    else [])

/-- The candidate user message of the new turn. -/
def userMessageOf (files : List File) (newMessage : String) : Message :=
  { role := some "user", content := .blocks (buildMessageContent files newMessage) }

/-- `lastUserText` of the duplicate-submit guard: when the last message is a
user message, its first `input_text` block's text (`?.text || ""`) for array
content, or the string itself for string content; otherwise JS `null`. -/
def lastUserTextOf (messages : List Message) : Option String :=
  match messages.getLast? with
  | some m =>
    if m.role = some "user" then
      some (match m.content with
        | .blocks bs => ((bs.find? (fun sub => sub.type = "input_text")).bind
            (fun sub => sub.text)).getD ""
        | .str s => s)
    else none
  | none => none

/-- The guard condition: skip the append when `lastUserText` and
`newMessageText` are both truthy and equal after trimming. -/
def shouldSkipAppend (messages : List Message) (newMessage : String) : Bool :=
  match lastUserTextOf messages with
  | some s => s ≠ "" ∧ newMessage ≠ "" ∧ jsTrim s = jsTrim newMessage
  | none => false

/-- Assemble the provider-bound message list from history, new text and
files (`promptTutor` lines 250-306). -/
def assembleMessages (chatHistory : List Message) (newMessage : String)
    (files : List File) : List Message :=
  if shouldSkipAppend chatHistory newMessage then chatHistory
  else chatHistory ++ [userMessageOf files newMessage]

/-! ### The image-detection expression (`promptTutor` lines 309-324)

The `files.some` callback references `isImageByContent`, which is declared
inside `processFile` and is not in scope in `promptTutor`; reaching that
reference raises a `ReferenceError`.  `Array.prototype.some` evaluates the
callback left to right and stops at the first `true`, so the expression is
evaluated as an `Except` computation. -/

/-- The runtime error raised by the out-of-scope reference. -/
inductive JsError where
  | referenceError
  deriving DecidableEq, Repr

/-- `hasImagesInMessages`: true when some message's array content holds an
item whose `type` is `"image_url"` (note: not `"input_image"`). -/
def hasImagesInMessages (messages : List Message) : Bool :=
  messages.any fun message =>
    match message.content with
    | .blocks bs => bs.any (fun item => item.type = "image_url")
    | .str _ => false

/-- One evaluation of the `files.some` callback: `true` for an image
extension, otherwise the `isImageByContent(f.buffer)` reference raises. -/
def fileImageCheck (f : File) : Except JsError Bool :=
  if imageExtensions.contains (fileExtensionOf f) then .ok true
  else .error .referenceError

/-- `files.some(...)` with the raising callback: left to right,
short-circuiting on the first `true`. -/
def filesSomeImage : List File → Except JsError Bool
  | [] => .ok false
  | f :: fs =>
    match fileImageCheck f with
    | .error e => .error e
    | .ok true => .ok true
    | .ok false => filesSomeImage fs

/-- The whole `hasImages` expression:
`(files && files.some(...)) || hasImagesInMessages(messages)`. -/
def evalHasImages (files : List File) (messages : List Message) :
    Except JsError Bool :=
  (filesSomeImage files).map (fun b => b || hasImagesInMessages messages)

/-- The pre-provider phase of `promptTutor`: assemble the messages, then
evaluate `hasImages`; a raised `ReferenceError` aborts the turn before the
provider call. -/
def promptTutorPrep (chatHistory : List Message) (newMessage : String)
    (files : List File) : Except JsError (List Message × Bool) :=
  let messages := assembleMessages chatHistory newMessage files
  (evalHasImages files messages).map (fun h => (messages, h))

/-! ### Transcript compaction (`processChatHistory`) -/

/-- The content rewrite of `processChatHistory`: string content is kept;
array content is replaced by
`content.filter(sub => sub.type !== "input_image")[0]?.text || content`
(the first non-image item's text when that text is truthy, otherwise the
original array). -/
def compactContent : Content → Content
  | .str s => .str s
  | .blocks bs =>
    if (((bs.filter (fun sub => sub.type ≠ "input_image")).head?).bind
        (fun sub => sub.text)).getD "" = "" then
      .blocks bs
    else
      .str ((((bs.filter (fun sub => sub.type ≠ "input_image")).head?).bind
        (fun sub => sub.text)).getD "")

/-- `processChatHistory` on one message: a reasoning item is re-marked
`noShow: true`; any other message has its content rewritten by
`compactContent` (all other fields spread through unchanged). -/
def compactMessage (m : Message) : Message :=
  if m.type = some "reasoning" then { m with noShow := some true }
  else { m with content := compactContent m.content }

/-- `processChatHistory` over the whole transcript. -/
def processChatHistory (messages : List Message) : List Message :=
  messages.map compactMessage

/-! ### Outbound payload stripping (`promptTutor` lines 344-360) -/

/-- Remove `noShow` from one content item. -/
def stripBlock (b : ContentBlock) : ContentBlock := { b with noShow := none }

/-- Remove the top-level `noShow` and every nested item `noShow` from one
message (string content is kept as is). -/
def stripMessage (m : Message) : Message :=
  { m with noShow := none,
           content :=
             match m.content with
             | .blocks bs => .blocks (bs.map stripBlock)
             | .str s => .str s }

/-- The `input` array handed to `client.responses.create`. -/
def buildProviderInput (messages : List Message) : List Message :=
  messages.map stripMessage

/-! ### Streaming session driver (`promptTutor` lines 366-440) -/

/-- Provider events consumed by the streaming loop. -/
inductive StreamEvent where
  | textDelta (delta : String)
  | textDone
  | reasoningDelta (delta : String)
  | reasoningDone
  | responseDone
  | otherEvent
  deriving DecidableEq, Repr

/-- Client-facing frames written by the loop (only deltas are written inside
the loop; the final frame is emitted after it). -/
inductive Frame where
  | messageDelta (content : String)
  deriving DecidableEq, Repr

/-- The loop's mutable state: accumulated output messages, the current
message buffer, the (never-written) reasoning buffer, and emitted frames. -/
structure StreamState where
  fullOutput : List Message := []
  currentMessage : String := ""
  currentReasoning : String := ""
  frames : List Frame := []
  deriving DecidableEq, Repr

/-- One iteration of the event loop; the `Bool` is the `break` on
`response.done`.  Note that `response.output_text.done` does NOT clear
`currentMessage`. -/
def stepEvent (st : StreamState) : StreamEvent → StreamState × Bool
  | .textDelta delta =>
    ({ st with currentMessage := st.currentMessage ++ delta,
               frames := st.frames ++ [.messageDelta delta] }, false)
  | .textDone =>
    (if st.currentMessage ≠ "" then
      { st with fullOutput := st.fullOutput ++
          [{ type := some "message", role := some "assistant",
             content := .str st.currentMessage }] }
     else st, false)
  | .reasoningDelta _ => (st, false)
  | .reasoningDone =>
    (if st.currentReasoning ≠ "" then
      { st with fullOutput := st.fullOutput ++
          [{ type := some "reasoning", content := .str st.currentReasoning }] }
     else st, false)
  | .responseDone => (st, true)
  | .otherEvent => (st, false)

/-- Run the event loop to completion (or end of the event list). -/
def runStream (st : StreamState) : List StreamEvent → StreamState
  | [] => st
  | e :: es =>
    let r := stepEvent st e
    if r.2 then r.1 else runStream r.1 es

/-- The driver started on the empty state. -/
def driveStream (events : List StreamEvent) : StreamState :=
  runStream {} events

/-! ### Concrete example values used by witnesses and counterexamples -/

/-- A `.png` upload (PNG magic bytes). -/
def pngFileEx : File := { originalname := some "a.png", buffer := [0x89, 0x50, 0x4e, 0x47] }

/-- A `.csv` upload with ASCII body `x`. -/
def csvFileEx : File := { originalname := some "b.csv", buffer := [0x78] }

/-- A `.exe` upload whose bytes are not an image. -/
def exeFileEx : File := { originalname := some "b.exe", buffer := [1, 2, 3, 4] }

/-- A `.exe` upload whose bytes carry the PNG magic. -/
def pngExeFileEx : File := { originalname := some "c.exe", buffer := [0x89, 0x50, 0x4e, 0x47] }

/-- A user message whose content is the plain string `"hi"`. -/
def strHiMsgEx : Message := { role := some "user", content := .str "hi" }

/-- A user message whose content holds one `input_text` block `"hi"`. -/
def blockHiMsgEx : Message :=
  { role := some "user", content := .blocks [{ type := "input_text", text := some "hi" }] }

/-- An assistant message whose only text block has the empty string as text. -/
def emptyTextMsgEx : Message :=
  { role := some "assistant", content := .blocks [{ type := "input_text", text := some "" }] }

/-- An assistant message with an image block followed by a text block. -/
def mixedMsgEx : Message :=
  { role := some "assistant",
    content := .blocks
      [{ type := "input_image", image_url := some "data:image/png;base64,AAAA", noShow := some true },
       { type := "input_text", text := some "hello" }] }

/-- A reasoning item as the streaming driver creates it (no `noShow`). -/
def reasoningMsgEx : Message := { type := some "reasoning", content := .str "r" }

/-! ### Helper lemmas -/

/-- The head of a filtered list is the first element satisfying the
predicate. -/
theorem head?_filter_eq_find? {α : Type} (p : α → Bool) (l : List α) :
    (l.filter p).head? = l.find? p := by
  induction l with
  | nil => rfl
  | cons a l ih =>
    by_cases h : p a <;> simp [List.filter_cons, List.find?_cons, h, ih]

/-- Every block produced by `processFile` is marked `noShow: true`. -/
theorem processFile_noShow (f : File) (b : ContentBlock)
    (h : processFile (some f) = some b) : b.noShow = some true := by
  unfold processFile at h
  repeat' split at h
  all_goals (try cases h)
  all_goals rfl

/-- The content rewrite of compaction is idempotent. -/
theorem compactContent_idem (c : Content) :
    compactContent (compactContent c) = compactContent c := by
  cases c with
  | str s => rfl
  | blocks bs =>
    by_cases h0 : (((bs.filter (fun sub => sub.type ≠ "input_image")).head?).bind
        (fun sub => sub.text)).getD "" = ""
    · rw [compactContent, if_pos h0, compactContent, if_pos h0]
    · rw [compactContent, if_neg h0]; rfl

/-- Compacting one message twice gives the same result as compacting once. -/
theorem compactMessage_idem (m : Message) :
    compactMessage (compactMessage m) = compactMessage m := by
  cases m with
  | mk role type content noShow =>
    by_cases h : type = some "reasoning" <;>
      simp [compactMessage, h, compactContent_idem]

/-! ### Claim theorems -/

/-- C1 (code bug evidence): the streaming driver does NOT clear
`currentMessage` on `text.done`, so for the provider event sequence
[delta "A", text.done, delta "B", text.done, response.done] the accumulated
output is two assistant messages with texts "A" and "AB" — not "A" and "B"
as the specification's buffer discipline states. -/
theorem c1_streaming_buffer_not_cleared :
    (driveStream [.textDelta "A", .textDone, .textDelta "B", .textDone,
        .responseDone]).fullOutput =
      [{ type := some "message", role := some "assistant", content := .str "A" },
       { type := some "message", role := some "assistant", content := .str "AB" }] := by
  rfl

/-- C6: transcript compaction is idempotent: applying `processChatHistory`
twice to any conversation equals applying it once. -/
theorem c6_compaction_idempotent (c : List Message) :
    processChatHistory (processChatHistory c) = processChatHistory c := by
  simp [processChatHistory, List.map_map, Function.comp_def, compactMessage_idem]

/-- C10: with empty new text and no files, the assembler still appends one
user message with an empty content-block list: the duplicate-submit guard
requires a non-empty new text, so it never suppresses this append. -/
theorem c10_empty_turn_appends (history : List Message) :
    assembleMessages history "" [] =
      history ++ [{ role := some "user", content := Content.blocks [] }] := by
  unfold assembleMessages shouldSkipAppend
  cases h : lastUserTextOf history <;>
    simp [userMessageOf, buildMessageContent]

/-- C7: for every file list and non-empty new text, the candidate message's
content is the classified blocks in input file order followed last by a
displayable (`noShow`-free) `input_text` block carrying the new text, and
every classified attachment block is marked `noShow: true`. -/
theorem c7_assembled_composition (files : List File) (newText : String)
    (h : newText ≠ "") :
    buildMessageContent files newText =
      files.filterMap (fun f => processFile (some f)) ++
        [{ type := "input_text", text := some newText, image_url := none, noShow := none }] ∧
    ∀ b ∈ files.filterMap (fun f => processFile (some f)), b.noShow = some true := by
  refine ⟨by simp [buildMessageContent, h], ?_⟩
  intro b hb
  rw [List.mem_filterMap] at hb
  obtain ⟨f, _, hf⟩ := hb
  exact processFile_noShow f b hf

/-- C7 witness: at files [a.png, b.csv] and new text "q", the assembled
content is classified blocks then the displayable text block, and the tags
come out image, text, text in that order. -/
theorem c7_assembled_composition_witness :
    buildMessageContent [pngFileEx, csvFileEx] "q" =
      [pngFileEx, csvFileEx].filterMap (fun f => processFile (some f)) ++
        [{ type := "input_text", text := some "q", image_url := none, noShow := none }] ∧
    (buildMessageContent [pngFileEx, csvFileEx] "q").map (fun b => b.type) =
      ["input_image", "input_text", "input_text"] :=
  ⟨(c7_assembled_composition [pngFileEx, csvFileEx] "q" (by decide)).1, by rfl⟩

/-- C9 counterexample: a `.exe` file whose bytes carry the PNG magic is
classified as an `input_image` block — not as the unsupported-type
`input_text` placeholder the claim promises for every `.exe` file — because
the magic-byte sniff runs before the unsupported-type fallback. -/
theorem c9_counterexample :
    processFile (some pngExeFileEx) =
      some { type := "input_image", text := none,
             image_url := some "data:image/png;base64,iVBORw==",
             noShow := some true } ∧
    fileExtensionOf pngExeFileEx = ".exe" := by
  constructor <;> rfl

/-- C9 (amended): classification is total at its interface: a null file
yields `null`, every real file yields some block (never an exception in the
model), and a `.exe` file whose bytes do NOT sniff as an image yields the
unsupported-type `input_text` placeholder, never `null`. -/
theorem c9_classifier_total (f : File) (hext : fileExtensionOf f = ".exe")
    (hsniff : isImageByContent f.buffer = none) :
    processFile none = none ∧
    (∀ g, (processFile (some g)).isSome = true) ∧
    processFile (some f) = some { type := "input_text",
                                  text := some ("Unsupported File Type (.exe) - " ++
                                    fileNameRaw f ++
                                    ":\n\n[File content could not be processed. Please convert to a supported format.]"),
                                  image_url := none, noShow := some true } := by
  refine ⟨rfl, ?_, ?_⟩
  · intro g
    unfold processFile
    repeat' split
    all_goals simp_all
  · simp [processFile, hext, hsniff, imageExtensions, textExtensions]

/-- C9 witness: the plain `.exe` example file is classified to the concrete
unsupported-type placeholder block. -/
theorem c9_classifier_total_witness :
    processFile (some exeFileEx) = some { type := "input_text",
                                          text := some ("Unsupported File Type (.exe) - " ++
                                            fileNameRaw exeFileEx ++
                                            ":\n\n[File content could not be processed. Please convert to a supported format.]"),
                                          image_url := none, noShow := some true } ∧
    fileNameRaw exeFileEx = "b.exe" :=
  ⟨(c9_classifier_total exeFileEx rfl rfl).2.2, rfl⟩

/-- C2 counterexample: a conversation whose only message's content array is
exactly the classifier's block for a `.png` upload does NOT make the
image-detection expression true: `hasImagesInMessages` looks for the tag
`"image_url"`, while the classifier emits `"input_image"`. -/
theorem c2_counterexample :
    evalHasImages []
      [{ role := some "user",
         content := .blocks ((processFile (some pngFileEx)).toList) }] =
      Except.ok false := by
  rfl

/-- C2 (amended): whenever the image-detection expression evaluates without
raising, its value is true iff some uploaded file has an image extension or
some message's content array holds an item tagged `"image_url"`; the
classifier's `"input_image"` blocks never satisfy the message check, and the
magic-sniff arm for files is unreachable without a ReferenceError. -/
theorem c2_hasImages_on_success (files : List File) (messages : List Message)
    (b : Bool) (h : evalHasImages files messages = Except.ok b) :
    b = (files.any (fun f => imageExtensions.contains (fileExtensionOf f)) ||
      hasImagesInMessages messages) := by
  cases files with
  | nil =>
    simp [evalHasImages, filesSomeImage, Except.map] at h
    simp [h]
  | cons f fs =>
    by_cases hf : fileExtensionOf f ∈ imageExtensions
    · simp [evalHasImages, filesSomeImage, fileImageCheck, hf, Except.map] at h
      simp [List.any_cons, hf, h]
    · simp [evalHasImages, filesSomeImage, fileImageCheck, hf, Except.map] at h

/-- C2 witness: at one `.png` file and no messages the expression evaluates
to `Except.ok true` and the amended equation holds. -/
theorem c2_hasImages_on_success_witness :
    true = ([pngFileEx].any (fun f => imageExtensions.contains (fileExtensionOf f)) ||
      hasImagesInMessages []) :=
  c2_hasImages_on_success [pngFileEx] [] true (by rfl)

/-- C3 counterexample: with files [a.png, b.exe] — a list containing a file
whose extension is outside the image set — the image-detection expression
evaluates to `Except.ok true` with no ReferenceError, because
`Array.prototype.some` stops at the first image-extension file. -/
theorem c3_counterexample :
    evalHasImages [pngFileEx, exeFileEx] [] = Except.ok true ∧
    imageExtensions.contains (fileExtensionOf exeFileEx) = false := by
  constructor <;> rfl

/-- C3 (amended): whenever the FIRST file's extension is outside the image
set, evaluating the image-detection expression reaches the out-of-scope
`isImageByContent` reference, so the turn aborts with a ReferenceError
before the provider call (classification of the files themselves having
already succeeded). -/
theorem c3_first_file_nonimage_raises (chatHistory : List Message)
    (newMessage : String) (files : List File) (f : File)
    (hhead : files.head? = some f)
    (hext : fileExtensionOf f ∉ imageExtensions) :
    promptTutorPrep chatHistory newMessage files =
      Except.error JsError.referenceError := by
  cases files with
  | nil => simp at hhead
  | cons g gs =>
    obtain rfl : g = f := by simpa using hhead
    simp [promptTutorPrep, evalHasImages, filesSomeImage, fileImageCheck,
      hext, Except.map]

/-- C3 witness: one `.exe` file makes the pre-provider phase raise. -/
theorem c3_first_file_nonimage_raises_witness :
    promptTutorPrep [] "x" [exeFileEx] = Except.error JsError.referenceError :=
  c3_first_file_nonimage_raises [] "x" [exeFileEx] exeFileEx rfl (by decide)

/-- The text the duplicate-submit guard compares, as the amended claim
describes it: for block content the first `input_text` block's text (empty
when no such block or no text), for string content the string itself. -/
def guardTextOf (m : Message) : String :=
  match m.content with
  | .str s => s
  | .blocks bs => ((bs.find? (fun sub => sub.type = "input_text")).bind
      (fun sub => sub.text)).getD ""

/-- The duplicate-submit condition as amended: the last history message is a
user message, its guard text and the new text are both non-empty, and the
two are equal after trimming. -/
def dupGuardTriggered (history : List Message) (newText : String) : Prop :=
  ∃ m, history.getLast? = some m ∧ m.role = some "user" ∧
    guardTextOf m ≠ "" ∧ newText ≠ "" ∧ jsTrim (guardTextOf m) = jsTrim newText

/-- The code's guard condition agrees with the amended description. -/
theorem shouldSkipAppend_iff (history : List Message) (newText : String) :
    shouldSkipAppend history newText = true ↔ dupGuardTriggered history newText := by
  unfold shouldSkipAppend lastUserTextOf dupGuardTriggered guardTextOf
  cases h : history.getLast? with
  | none => simp
  | some m =>
    by_cases hr : m.role = some "user" <;>
      cases hc : m.content <;> simp [hr, hc, and_assoc]

/-- C4 counterexample: the guard also fires when the last user message's
content is a plain STRING equal to the new text — a case with no first text
block at all, where the claim says the candidate message is appended. -/
theorem c4_counterexample :
    assembleMessages [strHiMsgEx] "hi" [] = [strHiMsgEx] ∧
    strHiMsgEx.content = .str "hi" := by
  constructor <;> rfl

/-- C4 (amended): the new user message is suppressed exactly when the last
history message is a user message whose guard text (first `input_text`
block's text for block content, or the string itself for string content) and
the new text are both non-empty and equal after trimming; in every other
case the candidate user message is appended. -/
theorem c4_duplicate_guard (history : List Message) (newText : String)
    (files : List File) :
    (dupGuardTriggered history newText →
      assembleMessages history newText files = history) ∧
    (¬ dupGuardTriggered history newText →
      assembleMessages history newText files =
        history ++ [userMessageOf files newText]) := by
  constructor
  · intro hd
    rw [assembleMessages, if_pos ((shouldSkipAppend_iff history newText).mpr hd)]
  · intro hd
    rw [assembleMessages,
      if_neg (fun hc => hd ((shouldSkipAppend_iff history newText).mp hc))]

/-- C4 witness: a last user message with block text "hi" and new text "hi"
suppresses the append. -/
theorem c4_duplicate_guard_witness :
    assembleMessages [blockHiMsgEx] "hi" [] = [blockHiMsgEx] :=
  (c4_duplicate_guard [blockHiMsgEx] "hi" []).1
    ⟨blockHiMsgEx, rfl, rfl, by decide, by decide, rfl⟩

/-- C5 counterexample: a message whose only text block carries the EMPTY
string keeps its original block-list content — the claim says any message
with a text block is rewritten to that block's text (here the string "").
The `|| message.content` fallback treats the empty text as falsy. -/
theorem c5_counterexample :
    compactMessage emptyTextMsgEx = emptyTextMsgEx ∧
    emptyTextMsgEx.content = .blocks [{ type := "input_text", text := some "" }] := by
  constructor <;> rfl

/-- C5 (amended): for a non-reasoning message, string content is kept
untouched, and block content is rewritten to the first non-image item's text
when that text exists and is non-empty; otherwise (no non-image item, no
text on it, or empty text) the original block list is kept. -/
theorem c5_compaction_rewrite (m : Message) (h : m.type ≠ some "reasoning") :
    (∀ s, m.content = .str s → (compactMessage m).content = .str s) ∧
    (∀ bs, m.content = .blocks bs →
      (compactMessage m).content =
        match (bs.find? (fun sub => sub.type ≠ "input_image")).bind
            (fun sub => sub.text) with
        | some t => if t = "" then .blocks bs else .str t
        | none => .blocks bs) := by
  refine ⟨?_, ?_⟩
  · intro s hs
    simp [compactMessage, h, hs, compactContent]
  · intro bs hbs
    have hcc : (compactMessage m).content = compactContent m.content := by
      simp [compactMessage, h]
    rw [hcc, hbs, compactContent, head?_filter_eq_find?]
    cases ho : (bs.find? (fun sub => sub.type ≠ "input_image")).bind
        (fun sub => sub.text) with
    | none => simp [ho]
    | some t => by_cases ht : t = "" <;> simp [ho, ht]

/-- C5 witness: an image block followed by a text block "hello" compacts to
the plain string "hello" (the image is discarded entirely). -/
theorem c5_compaction_rewrite_witness :
    (compactMessage mixedMsgEx).content = .str "hello" := by
  have h := (c5_compaction_rewrite mixedMsgEx (by decide)).2 _ rfl
  simpa using h

/-- C8 counterexample: a freshly created reasoning item (no `noShow`) comes
back in `newChatHistory` with `noShow: true` — its flag did not survive
unchanged, contrary to the claim's parenthetical about `newChatHistory`. -/
theorem c8_counterexample :
    (processChatHistory [reasoningMsgEx]).map (fun m => m.noShow) = [some true] ∧
    reasoningMsgEx.noShow = none := by
  constructor <;> rfl

/-- C8 (amended): the provider payload carries no `noShow` on any message or
content item; stripping only removes flags (role, type, block type / text /
image_url survive); and the history retained for `newChatHistory` keeps each
message-level flag unchanged EXCEPT that reasoning-kind messages are
re-marked `noShow: true` by the compactor. -/
theorem c8_strip_outbound_only (messages : List Message) :
    (∀ m ∈ buildProviderInput messages, m.noShow = none ∧
      ∀ bs, m.content = Content.blocks bs → ∀ b ∈ bs, b.noShow = none) ∧
    (∀ m ∈ messages, (stripMessage m).role = m.role ∧
      (stripMessage m).type = m.type) ∧
    (∀ b : ContentBlock, (stripBlock b).type = b.type ∧
      (stripBlock b).text = b.text ∧ (stripBlock b).image_url = b.image_url) ∧
    (∀ m ∈ messages, m.type ≠ some "reasoning" →
      (compactMessage m).noShow = m.noShow) ∧
    (∀ m ∈ messages, m.type = some "reasoning" →
      (compactMessage m).noShow = some true) := by
  refine ⟨?_, ?_, ?_, ?_, ?_⟩
  · intro m hm
    rw [buildProviderInput, List.mem_map] at hm
    obtain ⟨m0, _, rfl⟩ := hm
    refine ⟨rfl, ?_⟩
    intro bs hbs b hb
    cases hc : m0.content with
    | str s => simp [stripMessage, hc] at hbs
    | blocks bs0 =>
      simp [stripMessage, hc] at hbs
      subst hbs
      rw [List.mem_map] at hb
      obtain ⟨b0, _, rfl⟩ := hb
      rfl
  · exact fun m _ => ⟨rfl, rfl⟩
  · exact fun b => ⟨rfl, rfl, rfl⟩
  · intro m _ hm
    simp [compactMessage, hm]
  · intro m _ hm
    simp [compactMessage, hm]

/-- C8 witness: the stripped form of a concrete user message carries no
`noShow`. -/
theorem c8_strip_outbound_only_witness :
    (stripMessage blockHiMsgEx).noShow = none :=
  ((c8_strip_outbound_only [blockHiMsgEx]).1 (stripMessage blockHiMsgEx)
    (by simp [buildProviderInput])).1

end Jupytutor
